import Mathlib

/-!
Shallow embedding of the IBM Cloud account extension's credential/token
state machine (`src/cloud-account.ts` together with the storage layer in
`cloud-account-store.ts`).

Modelling choices:
* The persisted fields (account guid, email, refresh token) and the
  in-memory fields (`accessToken`, `expiration`) form a `Session`; the
  number of `'changed'` events emitted so far is tracked in
  `changedCount`.
* The outside world is an `Env` oracle: the current time (as observed by
  `checkTokens`), the IAM token-exchange endpoint (a function from the
  posted form to the response), the account-management pagination
  endpoint (a function from URL to page), and failure flags for the
  three storage deletes (the secure store / global state may reject).
  Discovery of the endpoints is modelled as always succeeding; a
  discovery failure is subsumed by an exchange failure for the claims
  considered here.
* JavaScript truthiness on `string | undefined | null` values
  (`!!refreshToken`, `if (!passcode)`, `if (response.next_url)`) is
  modelled by `truthy`: absent or empty strings are falsy.
* A thrown `Error` is an `Except.error` carrying the message; `finally`
  blocks are modelled by applying `emitChanged` to the state on every
  return path of the corresponding `try`.
* The unbounded `while (url)` pagination loop is modelled with fuel
  (`Env.fuel`); exhausted fuel or a failing page request both yield
  `none`, which the caller surfaces as a thrown error.
-/

namespace CloudAccount

/-- JS truthiness of a `string | undefined | null` value: absent and `""` are falsy. -/
def truthy : Option String → Bool
  | none => false
  | some s => !(s == "")

/-- The persisted fields of `CloudAccountStore`: global state holds the
account guid and email, the secure store holds the refresh token. -/
structure Store where
  account : Option String
  email : Option String
  refreshToken : Option String
deriving DecidableEq, Repr

/-- Full session state of a `CloudAccount` object: the store plus the
in-memory `accessToken` / `expiration` fields and the number of
`'changed'` events emitted so far. -/
structure Session where
  store : Store
  accessToken : Option String
  expiration : Int
  changedCount : Nat
deriving DecidableEq, Repr

/-- The form posted to the IAM token endpoint, by grant type. -/
inductive Form where
  | password (username pw : String)
  | apikey (k : String)
  | passcode (p : String)
  | refresh (account : Option String) (refresh_token : String)
deriving DecidableEq, Repr

/-- Outcome of a token exchange: a 2xx response with the token body, or
a failure (transport error, discovery failure, or non-2xx status — the
message is what `loginCommon` would throw). -/
inductive ExchangeResult where
  | ok (access_token : String) (expiration : Int) (refresh_token : String)
  | err (msg : String)
deriving DecidableEq, Repr

/-- One raw resource of the paginated account listing
(`metadata.guid`, `entity.name`, `entity.owner_userid`). -/
structure Resource where
  guid : String
  name : String
  owner_userid : String
deriving DecidableEq, Repr

/-- One page of the account listing: its resources and the optional
`next_url` pointer. -/
structure Page where
  resources : List Resource
  next_url : Option String
deriving DecidableEq, Repr

/-- The mapped account entry handed to the chooser callback. -/
structure AccountEntry where
  guid : String
  name : String
  email : String
deriving DecidableEq, Repr

/-- The external world: current time, discovery results, the token
endpoint, the account-listing endpoint, pagination fuel, and failure
flags for the storage deletes. -/
structure Env where
  now : Int
  passcodeEndpoint : String
  exchange : Form → ExchangeResult
  fetchPage : String → Option Page
  fuel : Nat
  deleteAccountFails : Bool
  deleteEmailFails : Bool
  deleteRefreshTokenFails : Bool

/-- `this.emit('changed')` in a `finally` block. -/
def emitChanged (s : Session) : Session :=
  { s with changedCount := s.changedCount + 1 }

/-- `store.deleteAccount()`: may reject (flag), otherwise clears the guid. -/
def sDeleteAccount (env : Env) (s : Session) : Except String Unit × Session :=
  if env.deleteAccountFails then (.error "account delete failed", s)
  else (.ok (), { s with store := { s.store with account := none } })

/-- `store.deleteEmail()`: may reject (flag), otherwise clears the email. -/
def sDeleteEmail (env : Env) (s : Session) : Except String Unit × Session :=
  if env.deleteEmailFails then (.error "email delete failed", s)
  else (.ok (), { s with store := { s.store with email := none } })

/-- `store.deleteRefreshToken()`: may reject (flag), otherwise clears the token. -/
def sDeleteRefreshToken (env : Env) (s : Session) : Except String Unit × Session :=
  if env.deleteRefreshTokenFails then (.error "refresh token delete failed", s)
  else (.ok (), { s with store := { s.store with refreshToken := none } })

/-- `store.setRefreshToken(rt)`. -/
def sSetRefreshToken (rt : String) (s : Session) : Session :=
  { s with store := { s.store with refreshToken := some rt } }

/-- `store.setAccount(guid)` followed by `store.setEmail(email)`. -/
def sSetAccountAndEmail (guid email : String) (s : Session) : Session :=
  { s with store := { s.store with account := some guid, email := some email } }

/-- `CloudAccount.loginCommon(form, refresh)`: exchange the grant, store
the access token and expiry in memory, on a non-refresh login delete the
stored account and email, then persist the returned refresh token. -/
def loginCommon (env : Env) (form : Form) (refresh : Bool) (s : Session) :
    Except String Unit × Session :=
  match env.exchange form with
  | .err msg => (.error msg, s)
  | .ok a e r =>
    let s := { s with accessToken := some a, expiration := e }
    if refresh then
      (.ok (), sSetRefreshToken r s)
    else
      match sDeleteAccount env s with
      | (.error msg, s) => (.error msg, s)
      | (.ok _, s) =>
        match sDeleteEmail env s with
        | (.error msg, s) => (.error msg, s)
        | (.ok _, s) => (.ok (), sSetRefreshToken r s)

/-- `CloudAccount.logout()`: clear the in-memory token, then delete
account, email and refresh token in order; the `finally` emits
`'changed'` on every path, but an error from a delete propagates and
skips the remaining deletes. -/
def logout (env : Env) (s : Session) : Except String Unit × Session :=
  let s := { s with accessToken := none, expiration := 0 }
  match sDeleteAccount env s with
  | (.error msg, s) => (.error msg, emitChanged s)
  | (.ok _, s) =>
    match sDeleteEmail env s with
    | (.error msg, s) => (.error msg, emitChanged s)
    | (.ok _, s) =>
      match sDeleteRefreshToken env s with
      | (.error msg, s) => (.error msg, emitChanged s)
      | (.ok _, s) => (.ok (), emitChanged s)

/-- `CloudAccount.loggedIn()`: a truthy refresh token is present. -/
def loggedIn (s : Session) : Bool :=
  truthy s.store.refreshToken

/-- `CloudAccount.accountSelected()`: a truthy account guid is present. -/
def accountSelected (s : Session) : Bool :=
  truthy s.store.account

/-- The `try` body of `CloudAccount.refreshTokens()`: read the refresh
token (throwing if falsy) and exchange it with the currently stored
account. -/
def refreshAttempt (env : Env) (s : Session) : Except String Unit × Session :=
  match s.store.refreshToken with
  | none => (.error "", s)
  | some rt =>
    if rt == "" then (.error "", s)
    else loginCommon env (.refresh s.store.account rt) true s

/-- `CloudAccount.refreshTokens()`: attempt the refresh exchange; on any
failure, log out and throw `'You are not logged into IBM Cloud'` (an
error from `logout` itself replaces that error). -/
def refreshTokens (env : Env) (s : Session) : Except String Unit × Session :=
  match refreshAttempt env s with
  | (.ok u, s) => (.ok u, s)
  | (.error _, s) =>
    match logout env s with
    | (.ok _, s) => (.error "You are not logged into IBM Cloud", s)
    | (.error msg, s) => (.error msg, s)

/-- `CloudAccount.checkTokens()`: refresh when less than 60 seconds of
validity remain. -/
def checkTokens (env : Env) (s : Session) : Except String Unit × Session :=
  if s.expiration - env.now < 60 then refreshTokens env s else (.ok (), s)

/-- The `finally { this.emit('changed') }` wrapper: the result of the
`try` body with one more `'changed'` event on the final state. -/
def withEmit {α : Type} (p : Except String α × Session) : Except String α × Session :=
  (p.1, emitChanged p.2)

/-- The `try` body of `CloudAccount.getAccessToken(accountRequired)`. -/
def getAccessTokenBody (env : Env) (accountRequired : Bool) (s : Session) :
    Except String (Option String) × Session :=
  if !loggedIn s then (.error "You are not logged into IBM Cloud", s)
  else if accountRequired && !accountSelected s then
    (.error "You have not selected an IBM Cloud account to use", s)
  else
    match checkTokens env s with
    | (.ok _, s) => (.ok s.accessToken, s)
    | (.error msg, s) => (.error msg, s)

/-- `CloudAccount.getAccessToken(accountRequired)`. -/
def getAccessToken (env : Env) (accountRequired : Bool) (s : Session) :
    Except String (Option String) × Session :=
  withEmit (getAccessTokenBody env accountRequired s)

/-- The `try` body of `CloudAccount.getRefreshToken(accountRequired)`:
same preconditions, then returns the refresh token currently in the
store. -/
def getRefreshTokenBody (env : Env) (accountRequired : Bool) (s : Session) :
    Except String (Option String) × Session :=
  if !loggedIn s then (.error "You are not logged into IBM Cloud", s)
  else if accountRequired && !accountSelected s then
    (.error "You have not selected an IBM Cloud account to use", s)
  else
    match checkTokens env s with
    | (.ok _, s) => (.ok s.store.refreshToken, s)
    | (.error msg, s) => (.error msg, s)

/-- `CloudAccount.getRefreshToken(accountRequired)`. -/
def getRefreshToken (env : Env) (accountRequired : Bool) (s : Session) :
    Except String (Option String) × Session :=
  withEmit (getRefreshTokenBody env accountRequired s)

/-- `CloudAccount.loginWithUsernameAndPassword(username, password)`. -/
def loginWithUsernameAndPassword (env : Env) (username pw : String) (s : Session) :
    Except String Bool × Session :=
  match loginCommon env (.password username pw) false s with
  | (.ok _, s) => (.ok true, emitChanged s)
  | (.error msg, s) => (.error msg, emitChanged s)

/-- `CloudAccount.loginWithApiKey(apikey)`. -/
def loginWithApiKey (env : Env) (k : String) (s : Session) :
    Except String Bool × Session :=
  match loginCommon env (.apikey k) false s with
  | (.ok _, s) => (.ok true, emitChanged s)
  | (.error msg, s) => (.error msg, emitChanged s)

/-- The `try` body of `CloudAccount.loginWithSSO(cb)`: fetch the
passcode endpoint, invoke the callback; a falsy passcode cancels the
operation (returns `false` without touching the session). -/
def loginWithSSOBody (env : Env) (cb : String → Option String) (s : Session) :
    Except String Bool × Session :=
  match cb env.passcodeEndpoint with
  | none => (.ok false, s)
  | some p =>
    if p == "" then (.ok false, s)
    else
      match loginCommon env (.passcode p) false s with
      | (.ok _, s) => (.ok true, s)
      | (.error msg, s) => (.error msg, s)

/-- `CloudAccount.loginWithSSO(cb)`. -/
def loginWithSSO (env : Env) (cb : String → Option String) (s : Session) :
    Except String Bool × Session :=
  withEmit (loginWithSSOBody env cb s)

/-- The pagination loop of `selectAccount`: request a page, accumulate
its resources, follow a truthy `next_url` until absent. `none` models a
failing page request or a chain longer than the fuel. -/
def fetchResources (fetch : String → Option Page) : Nat → String → Option (List Resource)
  | 0, _ => none
  | Nat.succ fuel, url =>
    match fetch url with
    | none => none
    | some page =>
      match page.next_url with
      | none => some page.resources
      | some nextUrl =>
        if nextUrl == "" then some page.resources
        else
          match fetchResources fetch fuel nextUrl with
          | none => none
          | some rest => some (page.resources ++ rest)

/-- The mapping from a raw resource to the account entry handed to the
chooser. -/
def toEntry (r : Resource) : AccountEntry :=
  ⟨r.guid, r.name, r.owner_userid⟩

/-- The initial URL of the account listing. -/
def accountsURL : String :=
  "https://accountmanagement.ng.bluemix.net/coe/v2/accounts"

/-- The tail of `selectAccount` once the account list is in hand:
auto-select a singleton list without consulting the chooser, otherwise
ask the chooser and treat an absent answer as cancellation; persist the
choice and force a refresh bound to the new account. -/
def chooseAndPersist (env : Env) (cb : List AccountEntry → Option AccountEntry)
    (accounts : List AccountEntry) (s : Session) : Except String Bool × Session :=
  match (if accounts.length = 1 then accounts[0]? else cb accounts) with
  | none => (.ok false, s)
  | some a =>
    match refreshTokens env (sSetAccountAndEmail a.guid a.email s) with
    | (.ok _, s) => (.ok true, s)
    | (.error msg, s) => (.error msg, s)

/-- The `try` body of `CloudAccount.selectAccount(cb)`: obtain an access
token (no account required), fetch the full paginated account list, then
select, persist and refresh. -/
def selectAccountBody (env : Env) (cb : List AccountEntry → Option AccountEntry)
    (s : Session) : Except String Bool × Session :=
  match getAccessToken env false s with
  | (.error msg, s) => (.error msg, s)
  | (.ok _, s) =>
    match fetchResources env.fetchPage env.fuel accountsURL with
    | none => (.error "account listing failed", s)
    | some resources => chooseAndPersist env cb (resources.map toEntry) s

/-- `CloudAccount.selectAccount(cb)`. -/
def selectAccount (env : Env) (cb : List AccountEntry → Option AccountEntry)
    (s : Session) : Except String Bool × Session :=
  withEmit (selectAccountBody env cb s)

/-! ## Helper lemmas -/

/-- When no storage delete fails, `logout` clears everything, succeeds,
and emits a single `'changed'` event. -/
theorem logout_ok_spec (env : Env) (s : Session)
    (ha : env.deleteAccountFails = false) (he : env.deleteEmailFails = false)
    (hr : env.deleteRefreshTokenFails = false) :
    logout env s = (.ok (), ⟨⟨none, none, none⟩, none, 0, s.changedCount + 1⟩) := by
  simp [logout, sDeleteAccount, sDeleteEmail, sDeleteRefreshToken, emitChanged, ha, he, hr]

/-- A refresh exchange (`loginCommon` with `refresh = true`) never
touches the stored account or email, on any path. -/
theorem loginCommon_refresh_preserves (env : Env) (form : Form) (s : Session) :
    ((loginCommon env form true s).2).store.account = s.store.account ∧
    ((loginCommon env form true s).2).store.email = s.store.email := by
  unfold loginCommon
  cases env.exchange form <;> simp [sSetRefreshToken]

/-- Inversion for a successful `refreshAttempt`: the stored refresh
token was truthy, the exchange succeeded, and the resulting state keeps
the account and email, installs the returned access token and expiry,
and stores the (possibly rotated) refresh token. -/
theorem refreshAttempt_ok_inv (env : Env) (s : Session) (u : Unit) (s' : Session)
    (h : refreshAttempt env s = (.ok u, s')) :
    ∃ rt a e r, s.store.refreshToken = some rt ∧ rt ≠ "" ∧
      env.exchange (.refresh s.store.account rt) = .ok a e r ∧
      s' = ⟨⟨s.store.account, s.store.email, some r⟩, some a, e, s.changedCount⟩ := by
  unfold refreshAttempt at h
  split at h
  · simp at h
  next rt hrt =>
    split at h
    · simp at h
    next hne =>
      unfold loginCommon at h
      split at h
      next msg hx =>
        simp at h
      next a e r hx =>
        simp only [if_true] at h
        injection h with h1 h2
        refine ⟨rt, a, e, r, hrt, by simpa using hne, hx, ?_⟩
        subst h2
        rfl

/-- Inversion for a successful `refreshTokens` call: same as a
successful `refreshAttempt` (the catch branch never returns `ok`). -/
theorem refreshTokens_ok_inv (env : Env) (s : Session) (u : Unit) (s' : Session)
    (h : refreshTokens env s = (.ok u, s')) :
    ∃ rt a e r, s.store.refreshToken = some rt ∧ rt ≠ "" ∧
      env.exchange (.refresh s.store.account rt) = .ok a e r ∧
      s' = ⟨⟨s.store.account, s.store.email, some r⟩, some a, e, s.changedCount⟩ := by
  unfold refreshTokens at h
  split at h
  next uu s₂ hA =>
    injection h with h1 h2
    subst h2
    exact refreshAttempt_ok_inv env s uu s₂ hA
  next msg s₂ hA =>
    split at h <;> simp at h

/-- A successful primary login exchange (`refresh = false`, deletes
healthy) clears the stored account and email and installs the returned
tokens. -/
theorem loginCommon_ok_spec (env : Env) (form : Form) (s : Session)
    (a : String) (e : Int) (r : String)
    (ha : env.deleteAccountFails = false) (he : env.deleteEmailFails = false)
    (hx : env.exchange form = .ok a e r) :
    loginCommon env form false s =
      (.ok (), ⟨⟨none, none, some r⟩, some a, e, s.changedCount⟩) := by
  simp [loginCommon, hx, sDeleteAccount, sDeleteEmail, sSetRefreshToken, ha, he]

/-- Inversion for a successful `checkTokens` call: either the token had
at least 60 seconds of validity left and nothing changed, or it was
stale and a successful refresh exchange was performed. -/
theorem checkTokens_ok_inv (env : Env) (s : Session) (u : Unit) (s' : Session)
    (h : checkTokens env s = (.ok u, s')) :
    (60 ≤ s.expiration - env.now ∧ s' = s) ∨
    (s.expiration - env.now < 60 ∧ ∃ rt a e r, s.store.refreshToken = some rt ∧ rt ≠ "" ∧
      env.exchange (.refresh s.store.account rt) = .ok a e r ∧
      s' = ⟨⟨s.store.account, s.store.email, some r⟩, some a, e, s.changedCount⟩) := by
  unfold checkTokens at h
  split at h
  next hlt => exact .inr ⟨hlt, refreshTokens_ok_inv env s u s' h⟩
  next hge =>
    injection h with h1 h2
    exact .inl ⟨by omega, h2.symm⟩

/-- `logout` emits exactly one `'changed'` event on every path. -/
theorem logout_count (env : Env) (s : Session) :
    ((logout env s).2).changedCount = s.changedCount + 1 := by
  cases ha : env.deleteAccountFails <;> cases he : env.deleteEmailFails <;>
    cases hr : env.deleteRefreshTokenFails <;>
    simp [logout, sDeleteAccount, sDeleteEmail, sDeleteRefreshToken, emitChanged, ha, he, hr]

/-- `loginCommon` never emits a `'changed'` event. -/
theorem loginCommon_count (env : Env) (form : Form) (rf : Bool) (s : Session) :
    ((loginCommon env form rf s).2).changedCount = s.changedCount := by
  unfold loginCommon
  cases env.exchange form <;> cases rf <;>
    cases ha : env.deleteAccountFails <;> cases he : env.deleteEmailFails <;>
    simp [sDeleteAccount, sDeleteEmail, sSetRefreshToken, ha, he]

/-- `refreshAttempt` never emits a `'changed'` event. -/
theorem refreshAttempt_count (env : Env) (s : Session) :
    ((refreshAttempt env s).2).changedCount = s.changedCount := by
  unfold refreshAttempt
  rcases s.store.refreshToken with _ | rt
  · rfl
  · by_cases hempty : rt = "" <;> simp [hempty, loginCommon_count]

/-- `refreshTokens` emits at most one `'changed'` event (the one from
the `logout` in its catch branch), and never un-emits. -/
theorem refreshTokens_count (env : Env) (s : Session) :
    s.changedCount ≤ ((refreshTokens env s).2).changedCount ∧
    ((refreshTokens env s).2).changedCount ≤ s.changedCount + 1 := by
  unfold refreshTokens
  rcases hA : refreshAttempt env s with ⟨ar, s₂⟩
  have hc : s₂.changedCount = s.changedCount := by
    have := refreshAttempt_count env s
    rw [hA] at this
    exact this
  cases ar with
  | ok uu => simp [hc]
  | error msg =>
    rcases hl : logout env s₂ with ⟨lr, ls⟩
    have hlc : ls.changedCount = s₂.changedCount + 1 := by
      have := logout_count env s₂
      rw [hl] at this
      exact this
    dsimp only
    rw [hl]
    cases lr <;> dsimp only <;> omega

/-- `checkTokens` emits at most one `'changed'` event. -/
theorem checkTokens_count (env : Env) (s : Session) :
    s.changedCount ≤ ((checkTokens env s).2).changedCount ∧
    ((checkTokens env s).2).changedCount ≤ s.changedCount + 1 := by
  unfold checkTokens
  split
  · exact refreshTokens_count env s
  · simp

/-! ## Concrete environments and states for witnesses -/

/-- A healthy environment: exchanges succeed (refreshing rotates the
token), a single listing page with one account, no storage failures. -/
def envW : Env :=
  { now := 1000
    passcodeEndpoint := "https://iam.cloud.ibm.com/identity/passcode"
    exchange := fun f =>
      match f with
      | .refresh _ rt => if rt == "tok-r" then .ok "tok-a2" 5000 "tok-r2" else .err "bad grant"
      | _ => .ok "tok-a" 3000 "tok-r"
    fetchPage := fun u =>
      if u == accountsURL then some ⟨[⟨"g1", "n1", "e1"⟩], none⟩ else none
    fuel := 9
    deleteAccountFails := false
    deleteEmailFails := false
    deleteRefreshTokenFails := false }

/-- A logged-in session with a selected account and a fresh token
(2000 - 1000 = 1000 ≥ 60 seconds of validity left at `envW.now`). -/
def sW : Session := ⟨⟨some "g0", some "e0", some "tok-r"⟩, some "tok-a0", 2000, 0⟩

/-- The same session with a token about to expire
(1030 - 1000 = 30 < 60 seconds left at `envW.now`). -/
def sStale : Session := ⟨⟨some "g0", some "e0", some "tok-r"⟩, some "tok-a0", 1030, 0⟩

/-- `envW` with a rejecting account delete. -/
def envDelFail : Env := { envW with deleteAccountFails := true }

/-- `envW` with a token endpoint that rejects every exchange. -/
def envRefreshFail : Env := { envW with exchange := fun _ => .err "bad grant" }

/-! ## Claims -/

/-- C9: `logout` is idempotent — with a store whose deletes succeed
silently on absent keys, calling `logout` twice in a row succeeds both
times and the session fields (refresh token, account id, email, access
token, expiry) after the second call equal those after the first call:
the empty logged-out state. -/
theorem logout_idempotent (env : Env) (s : Session)
    (ha : env.deleteAccountFails = false) (he : env.deleteEmailFails = false)
    (hr : env.deleteRefreshTokenFails = false) :
    (logout env s).1 = .ok () ∧
    (logout env (logout env s).2).1 = .ok () ∧
    ((logout env s).2).store = ⟨none, none, none⟩ ∧
    ((logout env s).2).accessToken = none ∧
    ((logout env s).2).expiration = 0 ∧
    ((logout env (logout env s).2).2).store = ((logout env s).2).store ∧
    ((logout env (logout env s).2).2).accessToken = ((logout env s).2).accessToken ∧
    ((logout env (logout env s).2).2).expiration = ((logout env s).2).expiration := by
  simp [logout_ok_spec env _ ha he hr]

/-- Witness for `logout_idempotent` at the concrete healthy environment. -/
theorem logout_idempotent_witness :
    envW.deleteAccountFails = false ∧ envW.deleteEmailFails = false ∧
    envW.deleteRefreshTokenFails = false ∧
    (logout envW sW).1 = .ok () ∧
    (logout envW (logout envW sW).2).1 = .ok () ∧
    ((logout envW sW).2).store = ⟨none, none, none⟩ ∧
    ((logout envW (logout envW sW).2).2).store = ((logout envW sW).2).store := by
  obtain ⟨h1, h2, h3, -, -, h6, -, -⟩ := logout_idempotent envW sW rfl rfl rfl
  exact ⟨rfl, rfl, rfl, h1, h2, h3, h6⟩

/-- C5 counterexample: with an account delete that rejects, `logout`
raises that error and never attempts the later deletes — the refresh
token survives and the session still counts as logged in, refuting both
"does not fail" and "subsequent deletes are still attempted". -/
theorem logout_delete_failure_cex :
    (logout envDelFail sW).1 = .error "account delete failed" ∧
    ((logout envDelFail sW).2).store.refreshToken = some "tok-r" ∧
    ((logout envDelFail sW).2).store.account = some "g0" ∧
    loggedIn ((logout envDelFail sW).2) = true := by
  exact ⟨rfl, rfl, rfl, rfl⟩

/-- C5 (amended): `logout` always clears the in-memory access token and
expiry and emits `'changed'`; when no storage delete fails it clears all
three stored fields and succeeds; but a failing delete propagates its
error to the caller and the deletes after it are not attempted. -/
theorem logout_clears_until_failure (env : Env) (s : Session) :
    (((logout env s).2).accessToken = none ∧ ((logout env s).2).expiration = 0) ∧
    (env.deleteAccountFails = false → env.deleteEmailFails = false →
      env.deleteRefreshTokenFails = false →
      logout env s = (.ok (), ⟨⟨none, none, none⟩, none, 0, s.changedCount + 1⟩)) ∧
    (env.deleteAccountFails = true →
      logout env s = (.error "account delete failed",
        ⟨s.store, none, 0, s.changedCount + 1⟩)) ∧
    (env.deleteAccountFails = false → env.deleteEmailFails = true →
      logout env s = (.error "email delete failed",
        ⟨⟨none, s.store.email, s.store.refreshToken⟩, none, 0, s.changedCount + 1⟩)) := by
  refine ⟨?_, ?_, ?_, ?_⟩
  · cases ha : env.deleteAccountFails <;> cases he : env.deleteEmailFails <;>
      cases hr : env.deleteRefreshTokenFails <;>
      simp [logout, sDeleteAccount, sDeleteEmail, sDeleteRefreshToken, emitChanged, ha, he, hr]
  · intro ha he hr
    exact logout_ok_spec env s ha he hr
  · intro ha
    simp [logout, sDeleteAccount, emitChanged, ha]
  · intro ha he
    simp [logout, sDeleteAccount, sDeleteEmail, emitChanged, ha, he]

/-- Witness for `logout_clears_until_failure`: the failing-delete branch
at a concrete environment. -/
theorem logout_clears_until_failure_witness :
    envDelFail.deleteAccountFails = true ∧
    logout envDelFail sW = (.error "account delete failed",
      ⟨⟨some "g0", some "e0", some "tok-r"⟩, none, 0, 1⟩) := by
  refine ⟨rfl, ?_⟩
  exact (logout_clears_until_failure envDelFail sW).2.2.1 rfl

/-- C1: a `getAccessToken` or `getRefreshToken` call that triggers a
refresh exchange (less than 60 seconds of validity left) whose exchange
fails first logs the session fully out — refresh token, account id,
email and in-memory access token/expiry all cleared — and then raises
the `'You are not logged into IBM Cloud'` error, so `loggedIn` on the
resulting state is false. (The store's deletes are assumed healthy, as
§4.3 requires of every `SecretStore`.) -/
theorem refresh_failure_forces_logout (env : Env) (ar : Bool) (s : Session)
    (rt msg : String)
    (ha : env.deleteAccountFails = false) (he : env.deleteEmailFails = false)
    (hr : env.deleteRefreshTokenFails = false)
    (hrt : s.store.refreshToken = some rt) (hne : rt ≠ "")
    (hacc : ar = true → accountSelected s = true)
    (hstale : s.expiration - env.now < 60)
    (hx : env.exchange (.refresh s.store.account rt) = .err msg) :
    getAccessToken env ar s = (.error "You are not logged into IBM Cloud",
      ⟨⟨none, none, none⟩, none, 0, s.changedCount + 2⟩) ∧
    getRefreshToken env ar s = (.error "You are not logged into IBM Cloud",
      ⟨⟨none, none, none⟩, none, 0, s.changedCount + 2⟩) ∧
    loggedIn ((getAccessToken env ar s).2) = false ∧
    loggedIn ((getRefreshToken env ar s).2) = false := by
  have hlog : loggedIn s = true := by
    simp [loggedIn, truthy, hrt, hne]
  have hAtt : refreshAttempt env s = (.error msg, s) := by
    unfold refreshAttempt
    rw [hrt]
    dsimp only
    rw [if_neg (by simpa using hne)]
    unfold loginCommon
    rw [hx]
  have hRef : refreshTokens env s = (.error "You are not logged into IBM Cloud",
      ⟨⟨none, none, none⟩, none, 0, s.changedCount + 1⟩) := by
    unfold refreshTokens
    rw [hAtt]
    dsimp only
    rw [logout_ok_spec env s ha he hr]
  have hChk : checkTokens env s = (.error "You are not logged into IBM Cloud",
      ⟨⟨none, none, none⟩, none, 0, s.changedCount + 1⟩) := by
    unfold checkTokens
    rw [if_pos hstale]
    exact hRef
  have hGuard : (ar && !accountSelected s) = false := by
    cases har : ar
    · rfl
    · simp [hacc har]
  have hA : getAccessToken env ar s = (.error "You are not logged into IBM Cloud",
      ⟨⟨none, none, none⟩, none, 0, s.changedCount + 2⟩) := by
    unfold getAccessToken withEmit getAccessTokenBody
    rw [hlog, hGuard]
    simp only [Bool.not_true, Bool.false_eq_true, if_false, hChk, emitChanged]
  have hB : getRefreshToken env ar s = (.error "You are not logged into IBM Cloud",
      ⟨⟨none, none, none⟩, none, 0, s.changedCount + 2⟩) := by
    unfold getRefreshToken withEmit getRefreshTokenBody
    rw [hlog, hGuard]
    simp only [Bool.not_true, Bool.false_eq_true, if_false, hChk, emitChanged]
  refine ⟨hA, hB, ?_, ?_⟩
  · rw [hA]
    rfl
  · rw [hB]
    rfl

/-- Witness for `refresh_failure_forces_logout`: a stale session against
an always-rejecting token endpoint. -/
theorem refresh_failure_forces_logout_witness :
    sStale.store.refreshToken = some "tok-r" ∧
    sStale.expiration - envRefreshFail.now < 60 ∧
    envRefreshFail.exchange (.refresh sStale.store.account "tok-r") = .err "bad grant" ∧
    getAccessToken envRefreshFail true sStale =
      (.error "You are not logged into IBM Cloud", ⟨⟨none, none, none⟩, none, 0, 2⟩) ∧
    loggedIn ((getAccessToken envRefreshFail true sStale).2) = false := by
  obtain ⟨h1, -, h3, -⟩ :=
    refresh_failure_forces_logout envRefreshFail true sStale "tok-r" "bad grant"
      rfl rfl rfl rfl (by decide) (fun _ => rfl) (by decide) rfl
  exact ⟨rfl, by decide, rfl, h1, h3⟩

/-- Inversion for a successful `getAccessToken` call: both guards
passed, `checkTokens` succeeded, and the returned token is the in-memory
access token of the post-check state. -/
theorem getAccessToken_ok_inv (env : Env) (ar : Bool) (s : Session)
    (tok : Option String) (s' : Session)
    (h : getAccessToken env ar s = (.ok tok, s')) :
    ∃ u s₁, checkTokens env s = (.ok u, s₁) ∧ tok = s₁.accessToken ∧ s' = emitChanged s₁ := by
  unfold getAccessToken withEmit at h
  rcases hB : getAccessTokenBody env ar s with ⟨br, bs⟩
  rw [hB] at h
  injection h with h1 h2
  unfold getAccessTokenBody at hB
  split at hB
  · injection hB with hB1 hB2
    rw [← hB1] at h1
    exact absurd h1 (by simp)
  split at hB
  · injection hB with hB1 hB2
    rw [← hB1] at h1
    exact absurd h1 (by simp)
  split at hB
  next u s₁ hC =>
    injection hB with hB1 hB2
    subst hB2
    refine ⟨u, s₁, hC, ?_, h2.symm⟩
    rw [← hB1] at h1
    injection h1 with h1
    exact h1.symm
  next msg s₁ hC =>
    injection hB with hB1 hB2
    rw [← hB1] at h1
    exact absurd h1 (by simp)

/-- C2: when `getAccessToken` returns a token, then at the freshness
check either at least the one-minute margin remained
(`expiration - now ≥ 60`, and the in-memory token is returned
unchanged), or the margin was violated (`delta < 60`) and a successful
refresh exchange was performed first, whose access token and expiry are
what is returned. -/
theorem getAccessToken_freshness (env : Env) (ar : Bool) (s : Session)
    (tok : Option String) (s' : Session)
    (h : getAccessToken env ar s = (.ok tok, s')) :
    (60 ≤ s.expiration - env.now ∧ tok = s.accessToken ∧ s'.expiration = s.expiration) ∨
    (s.expiration - env.now < 60 ∧ ∃ rt a e r, s.store.refreshToken = some rt ∧ rt ≠ "" ∧
      env.exchange (.refresh s.store.account rt) = .ok a e r ∧
      tok = some a ∧ s'.expiration = e) := by
  obtain ⟨u, s₁, hC, htok, hs'⟩ := getAccessToken_ok_inv env ar s tok s' h
  rcases checkTokens_ok_inv env s u s₁ hC with ⟨hfresh, rfl⟩ | ⟨hstale, rt, a, e, r, h1, h2, h3, rfl⟩
  · exact .inl ⟨hfresh, htok, by rw [hs']; rfl⟩
  · exact .inr ⟨hstale, rt, a, e, r, h1, h2, h3, htok, by rw [hs']; rfl⟩

/-- Witness for `getAccessToken_freshness`: a stale session against the
healthy endpoint — the refreshed token is returned. -/
theorem getAccessToken_freshness_witness :
    getAccessToken envW true sStale = (.ok (some "tok-a2"),
      ⟨⟨some "g0", some "e0", some "tok-r2"⟩, some "tok-a2", 5000, 1⟩) ∧
    (sStale.expiration - envW.now < 60 ∧
      envW.exchange (.refresh sStale.store.account "tok-r") = .ok "tok-a2" 5000 "tok-r2") ∧
    ((60 ≤ sStale.expiration - envW.now ∧ some "tok-a2" = sStale.accessToken ∧
        (⟨⟨some "g0", some "e0", some "tok-r2"⟩, some "tok-a2", 5000, 1⟩ : Session).expiration =
          sStale.expiration) ∨
      (sStale.expiration - envW.now < 60 ∧
        ∃ rt a e r, sStale.store.refreshToken = some rt ∧ rt ≠ "" ∧
          envW.exchange (.refresh sStale.store.account rt) = .ok a e r ∧
          some "tok-a2" = some a ∧
          (⟨⟨some "g0", some "e0", some "tok-r2"⟩, some "tok-a2", 5000, 1⟩ : Session).expiration = e)) := by
  refine ⟨rfl, ⟨by decide, rfl⟩, ?_⟩
  exact getAccessToken_freshness envW true sStale (some "tok-a2")
    ⟨⟨some "g0", some "e0", some "tok-r2"⟩, some "tok-a2", 5000, 1⟩ rfl

/-- A logged-out session. -/
def sOut : Session := ⟨⟨none, none, none⟩, none, 0, 0⟩

/-- A logged-in session with no account selected and a fresh token. -/
def sNoAcc : Session := ⟨⟨none, none, some "tok-r"⟩, some "tok-a0", 2000, 0⟩

/-- C3: `getAccessToken` and `getRefreshToken` have the same
preconditions: both raise the not-logged-in error when no refresh token
is stored, both raise the no-account-selected error when an account is
required but none is stored, and otherwise — after the same freshness
check — `getAccessToken` returns the in-memory access token while
`getRefreshToken` returns the refresh token currently held in storage
(the possibly rotated value of the post-check state). -/
theorem getTokens_preconditions (env : Env) (ar : Bool) (s : Session) :
    (s.store.refreshToken = none →
      getAccessToken env ar s = (.error "You are not logged into IBM Cloud", emitChanged s) ∧
      getRefreshToken env ar s = (.error "You are not logged into IBM Cloud", emitChanged s)) ∧
    (loggedIn s = true → ar = true → s.store.account = none →
      getAccessToken env ar s =
        (.error "You have not selected an IBM Cloud account to use", emitChanged s) ∧
      getRefreshToken env ar s =
        (.error "You have not selected an IBM Cloud account to use", emitChanged s)) ∧
    (loggedIn s = true → (ar = true → accountSelected s = true) →
      ∀ u s₁, checkTokens env s = (.ok u, s₁) →
        getAccessToken env ar s = (.ok s₁.accessToken, emitChanged s₁) ∧
        getRefreshToken env ar s = (.ok s₁.store.refreshToken, emitChanged s₁)) := by
  refine ⟨?_, ?_, ?_⟩
  · intro hn
    have hlog : loggedIn s = false := by simp [loggedIn, truthy, hn]
    constructor <;>
      simp [getAccessToken, getRefreshToken, withEmit, getAccessTokenBody,
        getRefreshTokenBody, hlog]
  · intro hlog har hn
    subst har
    have hsel : accountSelected s = false := by simp [accountSelected, truthy, hn]
    constructor <;>
      simp [getAccessToken, getRefreshToken, withEmit, getAccessTokenBody,
        getRefreshTokenBody, hlog, hsel]
  · intro hlog hacc u s₁ hC
    have hGuard : (ar && !accountSelected s) = false := by
      cases har : ar
      · rfl
      · simp [hacc har]
    constructor
    · unfold getAccessToken withEmit getAccessTokenBody
      rw [hlog, hGuard]
      simp only [Bool.not_true, Bool.false_eq_true, if_false, hC]
    · unfold getRefreshToken withEmit getRefreshTokenBody
      rw [hlog, hGuard]
      simp only [Bool.not_true, Bool.false_eq_true, if_false, hC]

/-- Witness for `getTokens_preconditions`: all three branches at
concrete states against the healthy environment. -/
theorem getTokens_preconditions_witness :
    (getAccessToken envW true sOut =
        (.error "You are not logged into IBM Cloud", emitChanged sOut) ∧
      getRefreshToken envW true sOut =
        (.error "You are not logged into IBM Cloud", emitChanged sOut)) ∧
    (getAccessToken envW true sNoAcc =
        (.error "You have not selected an IBM Cloud account to use", emitChanged sNoAcc) ∧
      getRefreshToken envW true sNoAcc =
        (.error "You have not selected an IBM Cloud account to use", emitChanged sNoAcc)) ∧
    (getAccessToken envW true sW = (.ok (some "tok-a0"), emitChanged sW) ∧
      getRefreshToken envW true sW = (.ok (some "tok-r"), emitChanged sW)) := by
  refine ⟨?_, ?_, ?_⟩
  · exact (getTokens_preconditions envW true sOut).1 rfl
  · exact (getTokens_preconditions envW true sNoAcc).2.1 rfl rfl rfl
  · exact (getTokens_preconditions envW true sW).2.2 rfl (fun _ => rfl) () sW rfl

/-- C4: a successful primary login (username/password, API key, or SSO)
deletes the previously stored account id and email and stores the new
refresh token, whereas a refresh exchange leaves the stored account id
and email unchanged. (Deletes are assumed healthy.) -/
theorem primary_login_clears_selection (env : Env) (s : Session)
    (ha : env.deleteAccountFails = false) (he : env.deleteEmailFails = false) :
    (∀ username pw a e r, env.exchange (.password username pw) = .ok a e r →
      loginWithUsernameAndPassword env username pw s =
        (.ok true, ⟨⟨none, none, some r⟩, some a, e, s.changedCount + 1⟩)) ∧
    (∀ k a e r, env.exchange (.apikey k) = .ok a e r →
      loginWithApiKey env k s =
        (.ok true, ⟨⟨none, none, some r⟩, some a, e, s.changedCount + 1⟩)) ∧
    (∀ cb p a e r, cb env.passcodeEndpoint = some p → p ≠ "" →
      env.exchange (.passcode p) = .ok a e r →
      loginWithSSO env cb s =
        (.ok true, ⟨⟨none, none, some r⟩, some a, e, s.changedCount + 1⟩)) ∧
    (∀ u s₁, refreshTokens env s = (.ok u, s₁) →
      s₁.store.account = s.store.account ∧ s₁.store.email = s.store.email) := by
  refine ⟨?_, ?_, ?_, ?_⟩
  · intro username pw a e r hx
    unfold loginWithUsernameAndPassword
    rw [loginCommon_ok_spec env _ s a e r ha he hx]
    rfl
  · intro k a e r hx
    unfold loginWithApiKey
    rw [loginCommon_ok_spec env _ s a e r ha he hx]
    rfl
  · intro cb p a e r hcb hp hx
    unfold loginWithSSO withEmit loginWithSSOBody
    rw [hcb]
    dsimp only
    rw [if_neg (by simpa using hp)]
    rw [loginCommon_ok_spec env _ s a e r ha he hx]
    rfl
  · intro u s₁ h
    obtain ⟨rt, a, e, r, h1, h2, h3, rfl⟩ := refreshTokens_ok_inv env s u s₁ h
    exact ⟨rfl, rfl⟩

/-- Witness for `primary_login_clears_selection`: a password login over
a session with a selected account clears the selection; a refresh over
the same session keeps it. -/
theorem primary_login_clears_selection_witness :
    envW.exchange (.password "u1" "p1") = .ok "tok-a" 3000 "tok-r" ∧
    loginWithUsernameAndPassword envW "u1" "p1" sW =
      (.ok true, ⟨⟨none, none, some "tok-r"⟩, some "tok-a", 3000, 1⟩) ∧
    refreshTokens envW sW =
      (.ok (), ⟨⟨some "g0", some "e0", some "tok-r2"⟩, some "tok-a2", 5000, 0⟩) ∧
    ((⟨⟨some "g0", some "e0", some "tok-r2"⟩, some "tok-a2", 5000, 0⟩ : Session).store.account =
        sW.store.account ∧
      (⟨⟨some "g0", some "e0", some "tok-r2"⟩, some "tok-a2", 5000, 0⟩ : Session).store.email =
        sW.store.email) := by
  refine ⟨rfl, ?_, rfl, ?_⟩
  · exact (primary_login_clears_selection envW sW rfl rfl).1 "u1" "p1" "tok-a" 3000 "tok-r" rfl
  · exact (primary_login_clears_selection envW sW rfl rfl).2.2.2 ()
      ⟨⟨some "g0", some "e0", some "tok-r2"⟩, some "tok-a2", 5000, 0⟩ rfl

/-- A successful `checkTokens` never touches the stored account id or
email. -/
theorem checkTokens_ok_preserves (env : Env) (s : Session) (u : Unit) (s₁ : Session)
    (h : checkTokens env s = (.ok u, s₁)) :
    s₁.store.account = s.store.account ∧ s₁.store.email = s.store.email := by
  rcases checkTokens_ok_inv env s u s₁ h with ⟨-, rfl⟩ | ⟨-, rt, a, e, r, -, -, -, rfl⟩
  · exact ⟨rfl, rfl⟩
  · exact ⟨rfl, rfl⟩

/-- A successful `getAccessToken` never touches the stored account id or
email. -/
theorem getAccessToken_ok_preserves (env : Env) (ar : Bool) (s : Session)
    (t : Option String) (s₁ : Session)
    (h : getAccessToken env ar s = (.ok t, s₁)) :
    s₁.store.account = s.store.account ∧ s₁.store.email = s.store.email := by
  obtain ⟨u, s₂, hC, -, rfl⟩ := getAccessToken_ok_inv env ar s t s₁ h
  exact checkTokens_ok_preserves env s u s₂ hC

/-- `envW` with a single listing page of two accounts, so that the
chooser callback is consulted. -/
def envW2 : Env :=
  { envW with fetchPage := fun u =>
      if u == accountsURL then some ⟨[⟨"g1", "n1", "e1"⟩, ⟨"g2", "n2", "e2"⟩], none⟩
      else none }

/-- C6: user cancellation of an interactive step is a no-op on session
state: an SSO passcode callback yielding no (or an empty) passcode makes
`loginWithSSO` return `false` with the session exactly as before (only
the `'changed'` event fires); an account chooser yielding no account
makes `selectAccount` return `false` with the stored account id and
email exactly as before the call; neither path raises an error. -/
theorem cancellation_is_noop (env : Env) (s : Session) :
    (∀ cb, cb env.passcodeEndpoint = none →
      loginWithSSO env cb s = (.ok false, emitChanged s)) ∧
    (∀ cb, cb env.passcodeEndpoint = some "" →
      loginWithSSO env cb s = (.ok false, emitChanged s)) ∧
    (∀ (cb : List AccountEntry → Option AccountEntry) t s₁ resources,
      getAccessToken env false s = (.ok t, s₁) →
      fetchResources env.fetchPage env.fuel accountsURL = some resources →
      (resources.map toEntry).length ≠ 1 →
      cb (resources.map toEntry) = none →
      selectAccount env cb s = (.ok false, emitChanged s₁) ∧
      s₁.store.account = s.store.account ∧ s₁.store.email = s.store.email) := by
  refine ⟨?_, ?_, ?_⟩
  · intro cb hcb
    unfold loginWithSSO withEmit loginWithSSOBody
    rw [hcb]
  · intro cb hcb
    unfold loginWithSSO withEmit loginWithSSOBody
    rw [hcb]
    simp
  · intro cb t s₁ resources hget hfetch hlen hcb
    refine ⟨?_, getAccessToken_ok_preserves env false s t s₁ hget⟩
    unfold selectAccount withEmit selectAccountBody
    rw [hget]
    dsimp only
    rw [hfetch]
    unfold chooseAndPersist
    dsimp only
    rw [if_neg hlen, hcb]

/-- Witness for `cancellation_is_noop`: a cancelled SSO login and a
cancelled chooser over a two-account listing, at concrete inputs. -/
theorem cancellation_is_noop_witness :
    loginWithSSO envW2 (fun _ => none) sW = (.ok false, emitChanged sW) ∧
    selectAccount envW2 (fun _ => none) sW = (.ok false, emitChanged (emitChanged sW)) ∧
    (emitChanged sW).store.account = sW.store.account ∧
    (emitChanged sW).store.email = sW.store.email := by
  obtain ⟨h1, -, h3⟩ := cancellation_is_noop envW2 sW
  obtain ⟨h4, h5, h6⟩ := h3 (fun _ => none) (some "tok-a0") (emitChanged sW)
    [⟨"g1", "n1", "e1"⟩, ⟨"g2", "n2", "e2"⟩] rfl rfl (by decide) rfl
  exact ⟨h1 (fun _ => none) rfl, h4, h5, h6⟩

/-- C7: when the fetched account list has exactly one entry, the chooser
callback is never consulted (the result is the same for every chooser),
the single account is auto-selected and persisted (guid and owner email)
with a refresh exchange bound to the new account guid, and afterwards
`accountSelected` is true (for a non-empty guid). -/
theorem single_account_autoselect (env : Env) (s : Session) (r0 : Resource)
    (hfetch : fetchResources env.fetchPage env.fuel accountsURL = some [r0]) :
    (∀ cb cb', selectAccount env cb s = selectAccount env cb' s) ∧
    (∀ cb t s₁ rt a e rn,
      getAccessToken env false s = (.ok t, s₁) →
      s₁.store.refreshToken = some rt → rt ≠ "" →
      env.exchange (.refresh (some r0.guid) rt) = .ok a e rn →
      selectAccount env cb s = (.ok true,
        ⟨⟨some r0.guid, some r0.owner_userid, some rn⟩, some a, e, s₁.changedCount + 1⟩) ∧
      (r0.guid ≠ "" → accountSelected ((selectAccount env cb s).2) = true)) := by
  constructor
  · intro cb cb'
    unfold selectAccount withEmit selectAccountBody
    rcases hget : getAccessToken env false s with ⟨gr, s₁⟩
    cases gr with
    | error msg => rfl
    | ok t =>
      dsimp only
      rw [hfetch]
      unfold chooseAndPersist
      dsimp only
      have hlen : (List.map toEntry [r0]).length = 1 := rfl
      simp only [if_pos hlen]
  · intro cb t s₁ rt a e rn hget hrt hne hx
    have hsel : selectAccount env cb s = (.ok true,
        ⟨⟨some r0.guid, some r0.owner_userid, some rn⟩, some a, e, s₁.changedCount + 1⟩) := by
      unfold selectAccount withEmit selectAccountBody
      rw [hget]
      dsimp only
      rw [hfetch]
      unfold chooseAndPersist
      dsimp only
      have hlen : (List.map toEntry [r0]).length = 1 := rfl
      simp only [if_pos hlen]
      have h0 : (List.map toEntry [r0])[0]? = some (toEntry r0) := rfl
      rw [h0]
      dsimp only
      have hra : refreshAttempt env (sSetAccountAndEmail (toEntry r0).guid (toEntry r0).email s₁) =
          (.ok (), ⟨⟨some r0.guid, some r0.owner_userid, some rn⟩, some a, e, s₁.changedCount⟩) := by
        unfold refreshAttempt sSetAccountAndEmail toEntry
        dsimp only
        rw [hrt]
        dsimp only
        rw [if_neg (by simpa using hne)]
        unfold loginCommon
        dsimp only
        rw [hx]
        rfl
      unfold refreshTokens
      rw [hra]
      rfl
    refine ⟨hsel, fun hg => ?_⟩
    rw [hsel]
    simp [accountSelected, truthy, hg]

/-- Witness for `single_account_autoselect`: `envW` serves exactly one
account (`g1`), which is selected without consulting the chooser. -/
theorem single_account_autoselect_witness :
    fetchResources envW.fetchPage envW.fuel accountsURL = some [⟨"g1", "n1", "e1"⟩] ∧
    selectAccount envW (fun _ => none) sW =
      (.ok true, ⟨⟨some "g1", some "e1", some "tok-r2"⟩, some "tok-a2", 5000, 2⟩) ∧
    accountSelected ((selectAccount envW (fun _ => none) sW).2) = true ∧
    selectAccount envW (fun _ => none) sW = selectAccount envW (fun l => l[0]?) sW := by
  obtain ⟨hind, hmain⟩ := single_account_autoselect envW sW ⟨"g1", "n1", "e1"⟩ rfl
  obtain ⟨h1, h2⟩ := hmain (fun _ => none) (some "tok-a0") (emitChanged sW) "tok-r"
    "tok-a2" 5000 "tok-r2" rfl rfl (by decide) rfl
  exact ⟨rfl, h1, h2 (by decide), hind (fun _ => none) (fun l => l[0]?)⟩

/-- A finite chain of listing pages: `fetch url` yields the head page,
whose truthy `next_url` leads to the chain of the remaining pages; the
last page has no (or an empty, hence falsy) `next_url`. -/
inductive PageChain (fetch : String → Option Page) : String → List Page → Prop
  | last (url : String) (p : Page) (hf : fetch url = some p)
      (hn : p.next_url = none ∨ p.next_url = some "") : PageChain fetch url [p]
  | cons (url u : String) (p : Page) (ps : List Page) (hf : fetch url = some p)
      (hn : p.next_url = some u) (hu : u ≠ "") (hc : PageChain fetch u ps) :
      PageChain fetch url (p :: ps)

/-- The pagination loop accumulates the resources of every page of a
chain, in page order. -/
theorem fetchResources_chain (fetch : String → Option Page) (url : String) (ps : List Page)
    (h : PageChain fetch url ps) : ∀ fuel, ps.length ≤ fuel →
    fetchResources fetch fuel url = some (ps.map Page.resources).flatten := by
  induction h with
  | last url p hf hn =>
    intro fuel hfuel
    cases fuel with
    | zero => simp at hfuel
    | succ f =>
      unfold fetchResources
      rw [hf]
      dsimp only
      rcases hn with hn | hn <;> rw [hn] <;> simp
  | cons url u p ps hf hn hu hc ih =>
    intro fuel hfuel
    cases fuel with
    | zero => simp at hfuel
    | succ f =>
      unfold fetchResources
      rw [hf]
      dsimp only
      rw [hn]
      dsimp only
      rw [if_neg (by simpa using hu)]
      rw [ih f (by simpa using hfuel)]
      simp

/-- C8: `selectAccount` retrieves the complete account list by
repeatedly requesting a page, appending each page's resources in order,
and following the truthy next-page URL until absent: for every finite
page chain (with fuel at least its length) the loop returns the
concatenation of all pages' resources in page order, and the account
list handed to the selection step — hence to the chooser when it is not
a singleton — is exactly that concatenation mapped entry-wise. -/
theorem pagination_accumulates (env : Env) (s : Session) (ps : List Page)
    (hchain : PageChain env.fetchPage accountsURL ps)
    (hfuel : ps.length ≤ env.fuel) :
    fetchResources env.fetchPage env.fuel accountsURL =
      some (ps.map Page.resources).flatten ∧
    (∀ cb t s₁, getAccessToken env false s = (.ok t, s₁) →
      selectAccount env cb s =
        withEmit (chooseAndPersist env cb
          (((ps.map Page.resources).flatten).map toEntry) s₁)) := by
  have hfr := fetchResources_chain env.fetchPage accountsURL ps hchain env.fuel hfuel
  refine ⟨hfr, ?_⟩
  intro cb t s₁ hget
  unfold selectAccount selectAccountBody
  rw [hget]
  dsimp only
  rw [hfr]

/-- The three listing pages of the pagination witness. -/
def page1 : Page := ⟨[⟨"g1", "n1", "e1"⟩, ⟨"g2", "n2", "e2"⟩], some "u2"⟩

def page2 : Page := ⟨[⟨"g3", "n3", "e3"⟩, ⟨"g4", "n4", "e4"⟩], some "u3"⟩

def page3 : Page := ⟨[⟨"g5", "n5", "e5"⟩, ⟨"g6", "n6", "e6"⟩], none⟩

/-- `envW` with three listing pages of two accounts each, linked by
`next_url` pointers. -/
def env3 : Env :=
  { envW with fetchPage := fun u =>
      if u == accountsURL then some page1
      else if u == "u2" then some page2
      else if u == "u3" then some page3
      else none }

/-- Witness for `pagination_accumulates`: three pages of two accounts
each produce all six entries in page order. -/
theorem pagination_accumulates_witness :
    fetchResources env3.fetchPage env3.fuel accountsURL =
      some [⟨"g1", "n1", "e1"⟩, ⟨"g2", "n2", "e2"⟩, ⟨"g3", "n3", "e3"⟩,
        ⟨"g4", "n4", "e4"⟩, ⟨"g5", "n5", "e5"⟩, ⟨"g6", "n6", "e6"⟩] ∧
    selectAccount env3 (fun _ => none) sW = (.ok false, emitChanged (emitChanged sW)) := by
  have hchain : PageChain env3.fetchPage accountsURL [page1, page2, page3] := by
    refine .cons accountsURL "u2" page1 [page2, page3] rfl rfl (by decide) ?_
    refine .cons "u2" "u3" page2 [page3] rfl rfl (by decide) ?_
    exact .last "u3" page3 rfl (.inl rfl)
  obtain ⟨h1, h2⟩ := pagination_accumulates env3 sW _ hchain (by decide)
  constructor
  · exact h1
  · have h3 := h2 (fun _ => none) (some "tok-a0") (emitChanged sW) rfl
    rw [h3]
    rfl

/-- `getAccessTokenBody` emits at most one `'changed'` event. -/
theorem getAccessTokenBody_count (env : Env) (ar : Bool) (s : Session) :
    s.changedCount ≤ ((getAccessTokenBody env ar s).2).changedCount ∧
    ((getAccessTokenBody env ar s).2).changedCount ≤ s.changedCount + 1 := by
  unfold getAccessTokenBody
  split
  · simp
  split
  · simp
  rcases hC : checkTokens env s with ⟨cr, cs⟩
  have hb := checkTokens_count env s
  rw [hC] at hb
  cases cr <;> simpa using hb

/-- `getRefreshTokenBody` emits at most one `'changed'` event. -/
theorem getRefreshTokenBody_count (env : Env) (ar : Bool) (s : Session) :
    s.changedCount ≤ ((getRefreshTokenBody env ar s).2).changedCount ∧
    ((getRefreshTokenBody env ar s).2).changedCount ≤ s.changedCount + 1 := by
  unfold getRefreshTokenBody
  split
  · simp
  split
  · simp
  rcases hC : checkTokens env s with ⟨cr, cs⟩
  have hb := checkTokens_count env s
  rw [hC] at hb
  cases cr <;> simpa using hb

/-- `getAccessToken` emits one or two `'changed'` events. -/
theorem getAccessToken_count (env : Env) (ar : Bool) (s : Session) :
    s.changedCount + 1 ≤ ((getAccessToken env ar s).2).changedCount ∧
    ((getAccessToken env ar s).2).changedCount ≤ s.changedCount + 2 := by
  unfold getAccessToken withEmit
  have hb := getAccessTokenBody_count env ar s
  simp only [emitChanged]
  omega

/-- `getRefreshToken` emits one or two `'changed'` events. -/
theorem getRefreshToken_count (env : Env) (ar : Bool) (s : Session) :
    s.changedCount + 1 ≤ ((getRefreshToken env ar s).2).changedCount ∧
    ((getRefreshToken env ar s).2).changedCount ≤ s.changedCount + 2 := by
  unfold getRefreshToken withEmit
  have hb := getRefreshTokenBody_count env ar s
  simp only [emitChanged]
  omega

/-- `chooseAndPersist` emits at most one `'changed'` event. -/
theorem chooseAndPersist_count (env : Env) (cb : List AccountEntry → Option AccountEntry)
    (accounts : List AccountEntry) (s : Session) :
    s.changedCount ≤ ((chooseAndPersist env cb accounts s).2).changedCount ∧
    ((chooseAndPersist env cb accounts s).2).changedCount ≤ s.changedCount + 1 := by
  unfold chooseAndPersist
  split
  · simp
  next a ha =>
    rcases hR : refreshTokens env (sSetAccountAndEmail a.guid a.email s) with ⟨rr, rs⟩
    have hb := refreshTokens_count env (sSetAccountAndEmail a.guid a.email s)
    rw [hR] at hb
    have hb2 : (sSetAccountAndEmail a.guid a.email s).changedCount ≤ rs.changedCount ∧
        rs.changedCount ≤ (sSetAccountAndEmail a.guid a.email s).changedCount + 1 := hb
    have hpre : (sSetAccountAndEmail a.guid a.email s).changedCount = s.changedCount := rfl
    cases rr <;> dsimp only <;> omega

/-- The body of `selectAccount` emits at least one `'changed'` event
(through its internal `getAccessToken` call). -/
theorem selectAccountBody_count (env : Env) (cb : List AccountEntry → Option AccountEntry)
    (s : Session) :
    s.changedCount + 1 ≤ ((selectAccountBody env cb s).2).changedCount := by
  unfold selectAccountBody
  rcases hG : getAccessToken env false s with ⟨gr, gs⟩
  have hb := getAccessToken_count env false s
  rw [hG] at hb
  cases gr with
  | error msg => simpa using hb.1
  | ok t =>
    have hb2 : s.changedCount + 1 ≤ gs.changedCount ∧ gs.changedCount ≤ s.changedCount + 2 := hb
    dsimp only
    rcases hF : fetchResources env.fetchPage env.fuel accountsURL with _ | resources
    · simpa using hb2.1
    · dsimp only
      have hc := chooseAndPersist_count env cb (resources.map toEntry) gs
      omega

/-- C10 counterexample: a successful `selectAccount` call emits two
`'changed'` events — one from its internal `getAccessToken` call and one
from its own `finally` — not exactly one, refuting the claim at this
concrete input. -/
theorem changed_emission_cex :
    ((selectAccount envW (fun _ => none) sW).2).changedCount = sW.changedCount + 2 ∧
    ((selectAccount envW (fun _ => none) sW).2).changedCount ≠ sW.changedCount + 1 := by
  exact ⟨rfl, by decide⟩

/-- C10 (amended): every listed operation emits at least one `'changed'`
event on every return path — its own `finally` emits exactly one — but
operations that internally call other emitting operations emit more: the
three logins and `logout` emit exactly one; `getAccessToken` and
`getRefreshToken` emit a second one when a failed refresh runs the
internal `logout`; `selectAccount` always emits at least two because its
internal `getAccessToken` call also emits. -/
theorem changed_emission_bounds :
    (∀ env username pw s,
      ((loginWithUsernameAndPassword env username pw s).2).changedCount =
        s.changedCount + 1) ∧
    (∀ env k s, ((loginWithApiKey env k s).2).changedCount = s.changedCount + 1) ∧
    (∀ env cb s, ((loginWithSSO env cb s).2).changedCount = s.changedCount + 1) ∧
    (∀ env s, ((logout env s).2).changedCount = s.changedCount + 1) ∧
    (∀ env ar s, s.changedCount + 1 ≤ ((getAccessToken env ar s).2).changedCount ∧
      ((getAccessToken env ar s).2).changedCount ≤ s.changedCount + 2) ∧
    (∀ env ar s, s.changedCount + 1 ≤ ((getRefreshToken env ar s).2).changedCount ∧
      ((getRefreshToken env ar s).2).changedCount ≤ s.changedCount + 2) ∧
    (∀ env cb s, s.changedCount + 2 ≤ ((selectAccount env cb s).2).changedCount) := by
  refine ⟨?_, ?_, ?_, logout_count, getAccessToken_count, getRefreshToken_count, ?_⟩
  · intro env username pw s
    unfold loginWithUsernameAndPassword
    rcases hL : loginCommon env (.password username pw) false s with ⟨lr, ls⟩
    have hc := loginCommon_count env (.password username pw) false s
    rw [hL] at hc
    have hc2 : ls.changedCount = s.changedCount := hc
    cases lr <;> simp [emitChanged, hc2]
  · intro env k s
    unfold loginWithApiKey
    rcases hL : loginCommon env (.apikey k) false s with ⟨lr, ls⟩
    have hc := loginCommon_count env (.apikey k) false s
    rw [hL] at hc
    have hc2 : ls.changedCount = s.changedCount := hc
    cases lr <;> simp [emitChanged, hc2]
  · intro env cb s
    unfold loginWithSSO withEmit loginWithSSOBody
    rcases hcb : cb env.passcodeEndpoint with _ | p
    · simp [emitChanged]
    · dsimp only
      by_cases hp : (p == "") = true
      · rw [if_pos hp]
        simp [emitChanged]
      · rw [if_neg hp]
        rcases hL : loginCommon env (.passcode p) false s with ⟨lr, ls⟩
        have hc := loginCommon_count env (.passcode p) false s
        rw [hL] at hc
        have hc2 : ls.changedCount = s.changedCount := hc
        cases lr <;> simp [emitChanged, hc2]
  · intro env cb s
    unfold selectAccount withEmit
    have hb := selectAccountBody_count env cb s
    simp only [emitChanged]
    omega

end CloudAccount
